import Mathlib

/-!
Shallow embedding of the AnyDataNext rustui client (src/rustui/src).
Definitions mirror the Rust source: `app.rs` (session state machine),
`main.rs` (event dispatcher `run_app`), `processors.rs` (processor
registry) and `api.rs` (serialized request/job types).
-/

namespace RustUI

/-- Mirror of `crossterm::event::KeyCode` restricted to the variants the
dispatcher and the handlers inspect; every other key is `Other`
(all of them land in the `_ => {}` arms of the source). -/
inductive KeyCode where
  | Char (c : Char)
  | Down
  | Up
  | Esc
  | Enter
  | Backspace
  | Other
  deriving DecidableEq, Repr

/-- `app.rs` lines 5-12: the five screens. -/
inductive AppState where
  | Main
  | Upload
  | Process
  | Settings
  | JobStatus
  deriving DecidableEq, Repr

/-- `app.rs` lines 14-20. -/
inductive ProcessingType where
  | Standard
  | Article
  | Translate
  | Batch
  deriving DecidableEq, Repr

/-- `ProcessingType::to_str`, `app.rs` lines 23-30. -/
def ProcessingType.to_str : ProcessingType → String
  | .Standard => "standard"
  | .Article => "article"
  | .Translate => "translate"
  | .Batch => "batch"

/-- Model of `tui_input::Input`: a text buffer with a cursor. -/
structure TextInput where
  value : String
  cursor : Nat
  deriving DecidableEq, Repr

/-- `Input::default()`: empty buffer. -/
def TextInput.default : TextInput := ⟨"", 0⟩

/-- Character insertion at the cursor (`job_id_input.insert(c)`). -/
def TextInput.insert (inp : TextInput) (c : Char) : TextInput :=
  ⟨⟨(inp.value.toList.take inp.cursor) ++ c :: (inp.value.toList.drop inp.cursor)⟩,
    inp.cursor + 1⟩

/-- Single-character deletion before the cursor (`job_id_input.delete()`). -/
def TextInput.delete (inp : TextInput) : TextInput :=
  if inp.cursor = 0 then inp
  else
    ⟨⟨(inp.value.toList.take (inp.cursor - 1)) ++ (inp.value.toList.drop inp.cursor)⟩,
      inp.cursor - 1⟩

/-- Association-list model of `HashMap<String, Vec<String>>`; `hashGet` is
`HashMap::get`. -/
def hashGet (m : List (String × List String)) (k : String) : Option (List String) :=
  (m.find? (fun p => p.1 = k)).map Prod.snd

/-- `app.rs` lines 42-61: the `App` session root. `models` is kept as an
association list (only `get` is ever used on the source HashMap). -/
structure App where
  state : AppState
  backend_url : String
  uploaded_files : List String
  selected_file_index : Option Nat
  processing_type : ProcessingType
  language : String
  job_id_input : TextInput
  current_job_id : Option String
  job_progress : Option (Nat × Nat)
  job_status : Option String
  providers : List String
  models : List (String × List String)
  selected_provider_index : Option Nat
  selected_model_index : Option Nat
  keywords : List String
  system_prompt : String
  message : Option String
  debug_info : List String
  deriving DecidableEq, Repr

namespace App

/-- `App::new`, `app.rs` lines 64-88. -/
def new (backend_url : String) : App where
  state := .Main
  backend_url := backend_url
  uploaded_files := []
  selected_file_index := none
  processing_type := .Standard
  language := "en"
  job_id_input := TextInput.default
  current_job_id := none
  job_progress := none
  job_status := none
  providers := ["openai", "anthropic"]
  models := [("openai", ["gpt-4-turbo", "gpt-3.5-turbo"]),
             ("anthropic", ["claude-3-opus", "claude-3-sonnet"])]
  selected_provider_index := some 0
  selected_model_index := some 0
  keywords := []
  system_prompt := ""
  message := none
  debug_info := []

/-- Placeholder for `uuid::Uuid::new_v4()`; the generated value is random
and no property here depends on it, only on `current_job_id` becoming
`some _`. -/
def uuid_new_v4 : String := "00000000-0000-0000-0000-000000000000"

/-- `App::handle_upload_input`, `app.rs` lines 98-107. -/
def handle_upload_input (a : App) (key : KeyCode) : App :=
  match key with
  | .Char 'f' =>
      { a with
        uploaded_files :=
          a.uploaded_files ++ ["file_" ++ toString (a.uploaded_files.length + 1) ++ ".pdf"],
        message := some "File uploaded successfully" }
  | _ => a

/-- `App::handle_process_input`, `app.rs` lines 109-149. Rust indexes
`self.uploaded_files[index]` in the submit branch; out-of-range indexing
panics there, modelled with `getD` (the reachable-state invariant proved
below shows the index is always in range). -/
def handle_process_input (a : App) (key : KeyCode) : App :=
  match key with
  | .Char '1' => { a with processing_type := .Standard }
  | .Char '2' => { a with processing_type := .Article }
  | .Char '3' => { a with processing_type := .Translate }
  | .Char '4' => { a with processing_type := .Batch }
  | .Char 'p' =>
      if a.uploaded_files ≠ [] then
        match a.selected_file_index with
        | some index =>
            let file := a.uploaded_files.getD index ""
            { a with
              current_job_id := some ("job_" ++ uuid_new_v4),
              job_progress := some (0, 100),
              job_status := some "processing",
              message := some ("Processing " ++ file ++ " with " ++
                a.processing_type.to_str ++ " type") }
        | none => { a with message := some "No file selected" }
      else a
  | .Down =>
      if a.uploaded_files ≠ [] then
        { a with
          selected_file_index :=
            match a.selected_file_index with
            | some i => if i < a.uploaded_files.length - 1 then some (i + 1) else some 0
            | none => some 0 }
      else a
  | .Up =>
      if a.uploaded_files ≠ [] then
        { a with
          selected_file_index :=
            match a.selected_file_index with
            | some i => if i > 0 then some (i - 1) else some (a.uploaded_files.length - 1)
            | none => some 0 }
      else a
  | _ => a

/-- `App::handle_settings_input`, `app.rs` lines 151-185. The source
indexes `self.providers[provider_idx]`, panicking when out of range;
modelled with `getD` (in-range on all reachable states, proved below). -/
def handle_settings_input (a : App) (key : KeyCode) : App :=
  match key with
  | .Char 'l' =>
      let lang := if a.language = "en" then "pl" else "en"
      { a with language := lang, message := some ("Language changed to " ++ lang) }
  | .Char 'p' =>
      if a.providers ≠ [] then
        { a with
          selected_provider_index :=
            match a.selected_provider_index with
            | some i => if i < a.providers.length - 1 then some (i + 1) else some 0
            | none => some 0,
          selected_model_index := some 0 }
      else a
  | .Char 'm' =>
      match a.selected_provider_index with
      | some provider_idx =>
          let provider := a.providers.getD provider_idx ""
          match hashGet a.models provider with
          | some ms =>
              if ms ≠ [] then
                { a with
                  selected_model_index :=
                    match a.selected_model_index with
                    | some i => if i < ms.length - 1 then some (i + 1) else some 0
                    | none => some 0 }
              else a
          | none => a
      | none => a
  | _ => a

/-- `App::handle_job_status_input`, `app.rs` lines 187-208. -/
def handle_job_status_input (a : App) (key : KeyCode) : App :=
  match key with
  | .Char c => { a with job_id_input := a.job_id_input.insert c }
  | .Backspace => { a with job_id_input := a.job_id_input.delete }
  | .Enter =>
      let job_id := a.job_id_input.value
      if job_id ≠ "" then
        { a with
          current_job_id := some job_id,
          job_progress := some (50, 100),
          job_status := some "processing",
          message := some "Job status retrieved" }
      else { a with message := some "Please enter a job ID" }
  | _ => a

/-- `App::get_current_provider`, `app.rs` lines 210-212. -/
def get_current_provider (a : App) : Option String :=
  a.selected_provider_index.bind (fun i => a.providers.get? i)

/-- `App::get_current_model`, `app.rs` lines 214-218. -/
def get_current_model (a : App) : Option String := do
  let provider ← a.get_current_provider
  let ms ← hashGet a.models provider
  a.selected_model_index.bind (fun i => ms.get? i)

end App

/-- One iteration of the key-press dispatch in `run_app`, `main.rs` lines
164-195 (only `KeyEventKind::Press` events reach this match). `none`
models the `return Ok(())` exit on `q` from the Main screen. -/
def step (a : App) (key : KeyCode) : Option App :=
  match a.state with
  | .Main =>
      match key with
      | .Char 'q' => none
      | .Char 'u' => some { a with state := .Upload }
      | .Char 'p' => some { a with state := .Process }
      | .Char 's' => some { a with state := .Settings }
      | .Char 'j' => some { a with state := .JobStatus }
      | _ => some a
  | .Upload =>
      match key with
      | .Esc => some { a with state := .Main }
      | _ => some (a.handle_upload_input key)
  | .Process =>
      match key with
      | .Esc => some { a with state := .Main }
      | _ => some (a.handle_process_input key)
  | .Settings =>
      match key with
      | .Esc => some { a with state := .Main }
      | _ => some (a.handle_settings_input key)
  | .JobStatus =>
      match key with
      | .Esc => some { a with state := .Main }
      | _ => some (a.handle_job_status_input key)

/-- Dispatch a whole sequence of key events; `none` once the loop exits. -/
def runKeys (a : App) : List KeyCode → Option App
  | [] => some a
  | k :: ks =>
      match step a k with
      | none => none
      | some a2 => runKeys a2 ks

/-! ### `processors.rs` -/

/-- Model of `serde_json::Number`: an unsigned integer, a negative
integer, or a finite float whose exact value is kept as a rational
(`serde_json::Number` cannot hold NaN or infinities). -/
inductive JNumber where
  | posInt (n : Nat)
  | negInt (z : Int)
  | float (q : Rat)
  deriving DecidableEq, Repr

/-- Model of `serde_json::Value`. -/
inductive Json where
  | null
  | bool (b : Bool)
  | num (n : JNumber)
  | str (s : String)
  | arr (xs : List Json)
  | obj (fields : List (String × Json))

/-- `processors.rs` lines 5-11; `metadata` kept as an association list. -/
structure Record where
  instruction : String
  prompt : String
  completion : String
  metadata : List (String × Json)

/-- `processors.rs` lines 23-28. -/
structure ProcessingStats where
  total_records : Nat
  total_tokens : Nat
  processing_time_ms : Nat
  deriving DecidableEq, Repr

/-- `processors.rs` lines 14-20. -/
structure ProcessingResult where
  records : List Record
  source_file : String
  processing_type : String
  stats : ProcessingStats

/-- `processors.rs` lines 38-47. -/
structure ProcessorConfig where
  model : String
  provider : String
  language : String
  system_prompt : Option String
  keywords : List String
  add_reasoning : Bool
  output_format : String
  deriving DecidableEq, Repr

/-- The closed set of `Processor` trait implementations
(`processors.rs` lines 50, 89, 129, 176). -/
inductive Processor where
  | StandardProcessor
  | ArticleProcessor
  | TranslateProcessor
  | BatchProcessor
  deriving DecidableEq, Repr

/-- The `name()` trait method of each implementation. -/
def Processor.name : Processor → String
  | .StandardProcessor => "standard"
  | .ArticleProcessor => "article"
  | .TranslateProcessor => "translate"
  | .BatchProcessor => "batch"

/-- `TranslateProcessor::process_file`, `processors.rs` lines 132-164:
always returns `Ok`; the completion text is the translated text for
target language `"pl"` and the unmodified source text otherwise. -/
def TranslateProcessor.process_file (file_path : String) (config : ProcessorConfig) :
    Except String ProcessingResult :=
  let source_language := "en"
  let target_language := config.language
  let record : Record :=
    { instruction := "Translate from " ++ source_language ++ " to " ++ target_language
      prompt := "This is sample text that needs to be translated."
      completion :=
        if target_language = "pl" then
          "To jest przykładowy tekst, który wymaga tłumaczenia."
        else
          "This is sample text that needs to be translated."
      metadata := [("source_language", Json.str source_language),
                   ("target_language", Json.str target_language),
                   ("character_count", Json.num (JNumber.posInt 45))] }
  .ok { records := [record]
        source_file := file_path
        processing_type := "translate"
        stats := { total_records := 1, total_tokens := 120, processing_time_ms := 1800 } }

/-- `get_processor`, `processors.rs` lines 224-232: case-sensitive exact
match on the processing-type string; `error` models `anyhow::bail!`. -/
def get_processor (processing_type : String) : Except String Processor :=
  if processing_type = "standard" then .ok .StandardProcessor
  else if processing_type = "article" then .ok .ArticleProcessor
  else if processing_type = "translate" then .ok .TranslateProcessor
  else if processing_type = "batch" then .ok .BatchProcessor
  else .error ("Unknown processing type: " ++ processing_type)

/-! ### `api.rs`: serialized request/job types and their serde round trip -/

/-- Model of `f32`: a finite value is identified by its exact rational
value (distinct finite floats have distinct rationals); NaN and the two
infinities are explicit. -/
inductive F32 where
  | finite (q : Rat)
  | nan
  | inf
  | neginf
  deriving DecidableEq, Repr

/-- `api.rs` lines 6-18 (`u32` as `Nat`, `f32` as `F32`). -/
structure ProcessingConfig where
  provider : String
  model : String
  system_prompt : Option String
  keywords : Option (List String)
  temperature : Option F32
  max_tokens : Option Nat
  language : Option String
  processing_type : String
  add_reasoning : Option Bool
  output_format : Option String
  deriving DecidableEq, Repr

/-- `api.rs` lines 20-27 (`u64` as `Nat`). -/
structure JobStatus where
  job_id : String
  status : String
  current : Option Nat
  total : Option Nat
  error : Option String
  deriving DecidableEq, Repr

/-- serde serialization of an `Option` field (no serde attributes on the
source structs): `None` serializes as `null`. -/
def jsonOfOpt (f : α → Json) : Option α → Json
  | none => Json.null
  | some x => f x

/-- serde_json serialization of `f32`: a finite value becomes a number;
NaN and infinities are not representable in `serde_json::Number` and
serialize as `null`. -/
def jsonOfF32 : F32 → Json
  | .finite q => Json.num (JNumber.float q)
  | .nan => Json.null
  | .inf => Json.null
  | .neginf => Json.null

/-- Derived `Serialize` for `ProcessingConfig`: an object with one entry
per field, in declaration order. -/
def serializeProcessingConfig (c : ProcessingConfig) : Json :=
  Json.obj
    [("provider", Json.str c.provider),
     ("model", Json.str c.model),
     ("system_prompt", jsonOfOpt Json.str c.system_prompt),
     ("keywords", jsonOfOpt (fun xs => Json.arr (xs.map Json.str)) c.keywords),
     ("temperature", jsonOfOpt jsonOfF32 c.temperature),
     ("max_tokens", jsonOfOpt (fun n => Json.num (JNumber.posInt n)) c.max_tokens),
     ("language", jsonOfOpt Json.str c.language),
     ("processing_type", Json.str c.processing_type),
     ("add_reasoning", jsonOfOpt Json.bool c.add_reasoning),
     ("output_format", jsonOfOpt Json.str c.output_format)]

/-- Derived `Serialize` for `JobStatus`. -/
def serializeJobStatus (j : JobStatus) : Json :=
  Json.obj
    [("job_id", Json.str j.job_id),
     ("status", Json.str j.status),
     ("current", jsonOfOpt (fun n => Json.num (JNumber.posInt n)) j.current),
     ("total", jsonOfOpt (fun n => Json.num (JNumber.posInt n)) j.total),
     ("error", jsonOfOpt Json.str j.error)]

/-- Field lookup in a serialized object. -/
def getField (j : Json) (k : String) : Option Json :=
  match j with
  | .obj fields => (fields.find? (fun p => p.1 = k)).map Prod.snd
  | _ => none

def Json.isNull : Json → Bool
  | .null => true
  | _ => false

/-- Deserialize a `String` field. -/
def jStr : Json → Option String
  | .str s => some s
  | _ => none

/-- Deserialize an unsigned-integer (`u32`/`u64`) field. -/
def jU64 : Json → Option Nat
  | .num (JNumber.posInt n) => some n
  | _ => none

/-- Deserialize a `bool` field. -/
def jBool : Json → Option Bool
  | .bool b => some b
  | _ => none

/-- Deserialize an `f32` field: any JSON number is accepted (numeric
conversions modelled as exact on this value model). -/
def jF32 : Json → Option F32
  | .num (JNumber.posInt n) => some (F32.finite n)
  | .num (JNumber.negInt z) => some (F32.finite z)
  | .num (JNumber.float q) => some (F32.finite q)
  | _ => none

/-- Deserialize a sequence of JSON strings elementwise, failing on the
first non-string element. -/
def jStrs : List Json → Option (List String)
  | [] => some []
  | j :: js =>
      match jStr j, jStrs js with
      | some s, some ss => some (s :: ss)
      | _, _ => none

/-- Deserialize a `Vec<String>` field. -/
def jStrList : Json → Option (List String)
  | .arr xs => jStrs xs
  | _ => none

/-- Derived `Deserialize` for an `Option<T>` field: a missing field or an
explicit `null` yields `None`; anything else must parse as `T`. -/
def jOpt (f : Json → Option α) : Option Json → Option (Option α)
  | none => some none
  | some j => if j.isNull then some none else (f j).map some

/-- Derived `Deserialize` for `ProcessingConfig` (field lookup by name;
required fields must be present with the right type). -/
def deserializeProcessingConfig (j : Json) : Option ProcessingConfig := do
  let provider ← getField j "provider" >>= jStr
  let model ← getField j "model" >>= jStr
  let system_prompt ← jOpt jStr (getField j "system_prompt")
  let keywords ← jOpt jStrList (getField j "keywords")
  let temperature ← jOpt jF32 (getField j "temperature")
  let max_tokens ← jOpt jU64 (getField j "max_tokens")
  let language ← jOpt jStr (getField j "language")
  let processing_type ← getField j "processing_type" >>= jStr
  let add_reasoning ← jOpt jBool (getField j "add_reasoning")
  let output_format ← jOpt jStr (getField j "output_format")
  pure { provider, model, system_prompt, keywords, temperature, max_tokens,
         language, processing_type, add_reasoning, output_format }

/-- Derived `Deserialize` for `JobStatus`. -/
def deserializeJobStatus (j : Json) : Option JobStatus := do
  let job_id ← getField j "job_id" >>= jStr
  let status ← getField j "status" >>= jStr
  let current ← jOpt jU64 (getField j "current")
  let total ← jOpt jU64 (getField j "total")
  let error ← jOpt jStr (getField j "error")
  pure { job_id, status, current, total, error }

/-- The temperature field holds no NaN or infinity. -/
def finiteTemp : Option F32 → Bool
  | none => true
  | some (.finite _) => true
  | some .nan => false
  | some .inf => false
  | some .neginf => false

/-! ## Round-trip helper lemmas -/

theorem jStr_str (s : String) : jStr (Json.str s) = some s := rfl

theorem jStrs_map_str (xs : List String) : jStrs (xs.map Json.str) = some xs := by
  induction xs with
  | nil => rfl
  | cons x xs ih => simp [jStrs, ih, jStr]

theorem jOpt_str (o : Option String) :
    jOpt jStr (some (jsonOfOpt Json.str o)) = some o := by
  cases o <;> rfl

theorem jOpt_u64 (o : Option Nat) :
    jOpt jU64 (some (jsonOfOpt (fun n => Json.num (JNumber.posInt n)) o)) = some o := by
  cases o <;> rfl

theorem jOpt_bool (o : Option Bool) :
    jOpt jBool (some (jsonOfOpt Json.bool o)) = some o := by
  cases o <;> rfl

theorem jOpt_strList (o : Option (List String)) :
    jOpt jStrList (some (jsonOfOpt (fun xs => Json.arr (xs.map Json.str)) o))
      = some o := by
  cases o with
  | none => rfl
  | some xs => simp [jOpt, jsonOfOpt, Json.isNull, jStrList, jStrs_map_str]

theorem jOpt_f32 (o : Option F32) (h : finiteTemp o = true) :
    jOpt jF32 (some (jsonOfOpt jsonOfF32 o)) = some o := by
  cases o with
  | none => rfl
  | some f => cases f with
    | finite q => rfl
    | nan => simp [finiteTemp] at h
    | inf => simp [finiteTemp] at h
    | neginf => simp [finiteTemp] at h

theorem getPC_provider (c : ProcessingConfig) :
    getField (serializeProcessingConfig c) "provider" = some (Json.str c.provider) := rfl

theorem getPC_model (c : ProcessingConfig) :
    getField (serializeProcessingConfig c) "model" = some (Json.str c.model) := rfl

theorem getPC_system_prompt (c : ProcessingConfig) :
    getField (serializeProcessingConfig c) "system_prompt"
      = some (jsonOfOpt Json.str c.system_prompt) := rfl

theorem getPC_keywords (c : ProcessingConfig) :
    getField (serializeProcessingConfig c) "keywords"
      = some (jsonOfOpt (fun xs => Json.arr (xs.map Json.str)) c.keywords) := rfl

theorem getPC_temperature (c : ProcessingConfig) :
    getField (serializeProcessingConfig c) "temperature"
      = some (jsonOfOpt jsonOfF32 c.temperature) := rfl

theorem getPC_max_tokens (c : ProcessingConfig) :
    getField (serializeProcessingConfig c) "max_tokens"
      = some (jsonOfOpt (fun n => Json.num (JNumber.posInt n)) c.max_tokens) := rfl

theorem getPC_language (c : ProcessingConfig) :
    getField (serializeProcessingConfig c) "language"
      = some (jsonOfOpt Json.str c.language) := rfl

theorem getPC_processing_type (c : ProcessingConfig) :
    getField (serializeProcessingConfig c) "processing_type"
      = some (Json.str c.processing_type) := rfl

theorem getPC_add_reasoning (c : ProcessingConfig) :
    getField (serializeProcessingConfig c) "add_reasoning"
      = some (jsonOfOpt Json.bool c.add_reasoning) := rfl

theorem getPC_output_format (c : ProcessingConfig) :
    getField (serializeProcessingConfig c) "output_format"
      = some (jsonOfOpt Json.str c.output_format) := rfl

theorem getJS_job_id (j : JobStatus) :
    getField (serializeJobStatus j) "job_id" = some (Json.str j.job_id) := rfl

theorem getJS_status (j : JobStatus) :
    getField (serializeJobStatus j) "status" = some (Json.str j.status) := rfl

theorem getJS_current (j : JobStatus) :
    getField (serializeJobStatus j) "current"
      = some (jsonOfOpt (fun n => Json.num (JNumber.posInt n)) j.current) := rfl

theorem getJS_total (j : JobStatus) :
    getField (serializeJobStatus j) "total"
      = some (jsonOfOpt (fun n => Json.num (JNumber.posInt n)) j.total) := rfl

theorem getJS_error (j : JobStatus) :
    getField (serializeJobStatus j) "error"
      = some (jsonOfOpt Json.str j.error) := rfl

/-! ## Theorems -/

/-- Claim C10: pressing the language key on Settings toggles the language:
it becomes "pl" exactly when it was "en" before, "en" otherwise, so after
one press it lies in the set containing "en" and "pl". -/
theorem settings_language_toggle (a : App) :
    ((a.handle_settings_input (.Char 'l')).language = "pl" ↔ a.language = "en") ∧
    (a.language ≠ "en" → (a.handle_settings_input (.Char 'l')).language = "en") ∧
    ((a.handle_settings_input (.Char 'l')).language = "en" ∨
      (a.handle_settings_input (.Char 'l')).language = "pl") := by
  by_cases h : a.language = "en" <;> simp [App.handle_settings_input, h]

/-- Witness for `settings_language_toggle` at the initial session. -/
theorem settings_language_toggle_witness :
    ((App.new "http://u").handle_settings_input (.Char 'l')).language = "pl" :=
  (settings_language_toggle (App.new "http://u")).1.mpr rfl

/-- Claim C9: cycling the provider on Settings with a non-empty provider
list always resets the selected model index to 0. -/
theorem settings_provider_cycle_resets_model_index (a : App)
    (h : a.providers ≠ []) :
    (a.handle_settings_input (.Char 'p')).selected_model_index = some 0 := by
  simp [App.handle_settings_input, h]

/-- Witness for `settings_provider_cycle_resets_model_index`. -/
theorem settings_provider_cycle_resets_model_index_witness :
    ((App.new "http://u").handle_settings_input (.Char 'p')).selected_model_index
      = some 0 :=
  settings_provider_cycle_resets_model_index (App.new "http://u") (by decide)

/-- Claim C5: `get_processor` is a case-sensitive exact match: each of the
four built-in names resolves to a processor whose name equals the key,
and every other string fails with the unknown-processing-type error. -/
theorem get_processor_resolution :
    (∀ s, s ∈ ["standard", "article", "translate", "batch"] →
      ∃ p, get_processor s = .ok p ∧ p.name = s) ∧
    (∀ s, s ∉ ["standard", "article", "translate", "batch"] →
      get_processor s = .error ("Unknown processing type: " ++ s)) ∧
    get_processor "unknown-mode" = .error "Unknown processing type: unknown-mode" := by
  refine ⟨?_, ?_, rfl⟩
  · intro s hs
    simp only [List.mem_cons, List.not_mem_nil, or_false] at hs
    rcases hs with rfl | rfl | rfl | rfl
    · exact ⟨.StandardProcessor, rfl, rfl⟩
    · exact ⟨.ArticleProcessor, rfl, rfl⟩
    · exact ⟨.TranslateProcessor, rfl, rfl⟩
    · exact ⟨.BatchProcessor, rfl, rfl⟩
  · intro s hs
    simp only [List.mem_cons, List.not_mem_nil, or_false, not_or] at hs
    obtain ⟨h1, h2, h3, h4⟩ := hs
    simp [get_processor, h1, h2, h3, h4]

/-- Witness for `get_processor_resolution`. -/
theorem get_processor_resolution_witness :
    (get_processor "standard").map Processor.name = .ok "standard" ∧
    get_processor "unknown-mode" = .error "Unknown processing type: unknown-mode" := by
  constructor
  · obtain ⟨p, h1, h2⟩ := get_processor_resolution.1 "standard" (by decide)
    rw [h1]
    simp [Except.map, h2]
  · exact get_processor_resolution.2.2

/-- Claim C6: the translate processor always succeeds; outside the known
target-language set (here exactly "pl") the completion is the unmodified
source text (equal to the prompt), while for "pl" it is translated text
different from the source. -/
theorem translate_language_fallback (fp : String) (config : ProcessorConfig) :
    (config.language ≠ "pl" →
      ∃ r, TranslateProcessor.process_file fp config = .ok r ∧
        ∃ rec, r.records = [rec] ∧ rec.completion = rec.prompt ∧
          rec.completion = "This is sample text that needs to be translated.") ∧
    (config.language = "pl" →
      ∃ r, TranslateProcessor.process_file fp config = .ok r ∧
        ∃ rec, r.records = [rec] ∧ rec.completion ≠ rec.prompt ∧
          rec.completion = "To jest przykładowy tekst, który wymaga tłumaczenia.") := by
  constructor
  · intro h
    exact ⟨_, rfl, _, rfl, by simp [TranslateProcessor.process_file, h],
      by simp [TranslateProcessor.process_file, h]⟩
  · intro h
    exact ⟨_, rfl, _, rfl, by simp [TranslateProcessor.process_file, h],
      by simp [TranslateProcessor.process_file, h]⟩

/-- Witness for `translate_language_fallback` at target languages "de"
(fallback) and "pl" (translated). -/
theorem translate_language_fallback_witness :
    (TranslateProcessor.process_file "a.pdf"
        { model := "m", provider := "p", language := "de", system_prompt := none,
          keywords := [], add_reasoning := false, output_format := "json" }).map
        (fun r => r.records.map Record.completion)
      = .ok ["This is sample text that needs to be translated."] ∧
    (TranslateProcessor.process_file "a.pdf"
        { model := "m", provider := "p", language := "pl", system_prompt := none,
          keywords := [], add_reasoning := false, output_format := "json" }).map
        (fun r => r.records.map Record.completion)
      = .ok ["To jest przykładowy tekst, który wymaga tłumaczenia."] := by
  constructor
  · obtain ⟨r, h1, rec, h2, h3, h4⟩ := (translate_language_fallback "a.pdf"
      { model := "m", provider := "p", language := "de", system_prompt := none,
        keywords := [], add_reasoning := false, output_format := "json" }).1 (by decide)
    rw [h1]
    simp [Except.map, h2, h4]
  · obtain ⟨r, h1, rec, h2, h3, h4⟩ := (translate_language_fallback "a.pdf"
      { model := "m", provider := "p", language := "pl", system_prompt := none,
        keywords := [], add_reasoning := false, output_format := "json" }).2 rfl
    rw [h1]
    simp [Except.map, h2, h4]

/-- Claim C7: on the JobStatus screen, Enter with an empty job-id field
leaves the job fields unchanged and asks for a job ID; with a non-empty
field it sets the current job id to the entered text. -/
theorem job_status_enter_behavior (a : App) :
    (a.job_id_input.value = "" →
      (a.handle_job_status_input .Enter).current_job_id = a.current_job_id ∧
      (a.handle_job_status_input .Enter).job_progress = a.job_progress ∧
      (a.handle_job_status_input .Enter).job_status = a.job_status ∧
      (a.handle_job_status_input .Enter).message = some "Please enter a job ID") ∧
    (a.job_id_input.value ≠ "" →
      (a.handle_job_status_input .Enter).current_job_id = some a.job_id_input.value) := by
  by_cases h : a.job_id_input.value = "" <;>
    simp [App.handle_job_status_input, h]

/-- Witness for `job_status_enter_behavior`: empty field at the initial
session, non-empty field after typing. -/
theorem job_status_enter_behavior_witness :
    (((App.new "http://u").handle_job_status_input .Enter).message
        = some "Please enter a job ID") ∧
    ((({ App.new "http://u" with job_id_input := ⟨"j1", 2⟩ } : App).handle_job_status_input
        .Enter).current_job_id = some "j1") :=
  ⟨((job_status_enter_behavior (App.new "http://u")).1 rfl).2.2.2,
   (job_status_enter_behavior _).2 (by decide)⟩

/-- Claim C3: file-list navigation on Process wraps around: Down from the
last index goes to 0, Up from 0 goes to the last index, a step with no
selection selects 0; on an empty list both steps are complete no-ops. -/
theorem process_file_list_wraparound (a : App) :
    (a.uploaded_files ≠ [] →
      (a.selected_file_index = some (a.uploaded_files.length - 1) →
        (a.handle_process_input .Down).selected_file_index = some 0) ∧
      (a.selected_file_index = some 0 →
        (a.handle_process_input .Up).selected_file_index
          = some (a.uploaded_files.length - 1)) ∧
      (a.selected_file_index = none →
        (a.handle_process_input .Down).selected_file_index = some 0 ∧
        (a.handle_process_input .Up).selected_file_index = some 0)) ∧
    (a.uploaded_files = [] →
      a.handle_process_input .Down = a ∧ a.handle_process_input .Up = a) := by
  constructor
  · intro hne
    refine ⟨?_, ?_, ?_⟩
    · intro hsel
      simp [App.handle_process_input, hne, hsel]
    · intro hsel
      simp [App.handle_process_input, hne, hsel]
    · intro hsel
      constructor <;> simp [App.handle_process_input, hne, hsel]
  · intro he
    constructor <;> simp [App.handle_process_input, he]

/-- Witness for `process_file_list_wraparound` on a two-element list. -/
theorem process_file_list_wraparound_witness :
    ((({ App.new "http://u" with uploaded_files := ["f1.pdf", "f2.pdf"], selected_file_index := some 1 } : App).handle_process_input
        .Down).selected_file_index = some 0) ∧
    ((({ App.new "http://u" with uploaded_files := ["f1.pdf", "f2.pdf"], selected_file_index := some 0 } : App).handle_process_input
        .Up).selected_file_index = some 1) ∧
    ((App.new "http://u").handle_process_input .Down = App.new "http://u") :=
  ⟨((process_file_list_wraparound _).1 (by decide)).1 (by decide),
   ((process_file_list_wraparound _).1 (by decide)).2.1 (by decide),
   ((process_file_list_wraparound (App.new "http://u")).2 rfl).1⟩

/-- Counterexample to claim C1 as stated: on the Process screen with an
empty uploaded-file list and no selection, pressing the submit key is a
complete no-op — in particular the status message is NOT set to a
"no file selected" message (it stays `none`). -/
theorem process_submit_no_selection_cex :
    step { App.new "http://u" with state := AppState.Process } (.Char 'p')
      = some { App.new "http://u" with state := AppState.Process } ∧
    ({ App.new "http://u" with state := AppState.Process } : App).selected_file_index
      = none ∧
    ({ App.new "http://u" with state := AppState.Process } : App).message = none := by
  refine ⟨?_, rfl, rfl⟩
  decide

/-- Claim C1 amended: pressing the submit key with no file selected never
submits a job (current job id, progress and status are unchanged); when
the uploaded-file list is non-empty the status message becomes
"No file selected", but when the list is empty the key press is a
complete no-op and no message is set. -/
theorem process_submit_no_selection (a : App) (h : a.selected_file_index = none) :
    (a.handle_process_input (.Char 'p')).current_job_id = a.current_job_id ∧
    (a.handle_process_input (.Char 'p')).job_progress = a.job_progress ∧
    (a.handle_process_input (.Char 'p')).job_status = a.job_status ∧
    (a.uploaded_files ≠ [] →
      (a.handle_process_input (.Char 'p')).message = some "No file selected") ∧
    (a.uploaded_files = [] → a.handle_process_input (.Char 'p') = a) := by
  by_cases he : a.uploaded_files = [] <;>
    simp [App.handle_process_input, h, he]

/-- Witness for `process_submit_no_selection` with one uploaded file and
no selection. -/
theorem process_submit_no_selection_witness :
    (({ App.new "http://u" with uploaded_files := ["f1.pdf"] } : App).handle_process_input
        (.Char 'p')).message = some "No file selected" :=
  ((process_submit_no_selection
      { App.new "http://u" with uploaded_files := ["f1.pdf"] } rfl).2.2.2.1) (by decide)

/-- Claim C2: after any dispatched key sequence the active screen is one
of the five screen states, and one press of Esc always lands on Main
(the dispatch still running, it never exits on Esc). -/
theorem dispatcher_state_space_and_esc (keys : List KeyCode) (a a2 : App)
    (_h : runKeys a keys = some a2) :
    (a2.state = .Main ∨ a2.state = .Upload ∨ a2.state = .Process ∨
      a2.state = .Settings ∨ a2.state = .JobStatus) ∧
    (∃ a3, step a2 .Esc = some a3 ∧ a3.state = .Main) := by
  constructor
  · cases hs : a2.state <;> simp
  · cases hs : a2.state
    case Main => exact ⟨a2, by simp [step, hs], hs⟩
    all_goals exact ⟨{ a2 with state := .Main }, by simp [step, hs], rfl⟩

/-- Witness for `dispatcher_state_space_and_esc`: one key press from the
initial session reaches the Settings screen; Esc returns to Main. -/
theorem dispatcher_state_space_and_esc_witness :
    (step { App.new "http://u" with state := AppState.Settings } .Esc).map App.state
      = some AppState.Main := by
  obtain ⟨a3, h1, h2⟩ :=
    (dispatcher_state_space_and_esc [.Char 's'] (App.new "http://u")
      { App.new "http://u" with state := AppState.Settings } rfl).2
  rw [h1]
  simp [h2]

/-- Strengthened reachable-state invariant for claim C4: the provider and
model catalogs are the constants set up by `App::new`, the selected file
index is in range, the selected provider index is present and below 2,
and the selected model index is below 2 when present. -/
def Inv (a : App) : Prop :=
  a.providers = ["openai", "anthropic"] ∧
  a.models = [("openai", ["gpt-4-turbo", "gpt-3.5-turbo"]),
              ("anthropic", ["claude-3-opus", "claude-3-sonnet"])] ∧
  (∀ i, a.selected_file_index = some i → i < a.uploaded_files.length) ∧
  (∃ j, a.selected_provider_index = some j ∧ j < 2) ∧
  (∀ k, a.selected_model_index = some k → k < 2)

/-- Length of the model list of the currently selected provider — the
collection that `selected_model_index` indexes (see
`App::get_current_model`). -/
def currentModelsLen (a : App) : Nat :=
  ((a.get_current_provider.bind (fun p => hashGet a.models p)).getD []).length

theorem inv_new (url : String) : Inv (App.new url) := by
  refine ⟨rfl, rfl, ?_, ⟨0, rfl, by omega⟩, ?_⟩
  · intro i hi
    simp [App.new] at hi
  · intro k hk
    simp [App.new] at hk
    omega

theorem inv_handle_upload (a : App) (k : KeyCode) (h : Inv a) :
    Inv (a.handle_upload_input k) := by
  obtain ⟨hp, hm, hf, hj, hk⟩ := h
  unfold App.handle_upload_input
  split
  · refine ⟨hp, hm, ?_, hj, hk⟩
    intro i hi
    have := hf i hi
    simp only [List.length_append, List.length_cons, List.length_nil]
    omega
  · exact ⟨hp, hm, hf, hj, hk⟩

theorem inv_handle_process (a : App) (k : KeyCode) (h : Inv a) :
    Inv (a.handle_process_input k) := by
  obtain ⟨hp, hm, hf, hj, hk⟩ := h
  unfold App.handle_process_input
  split
  · exact ⟨hp, hm, hf, hj, hk⟩
  · exact ⟨hp, hm, hf, hj, hk⟩
  · exact ⟨hp, hm, hf, hj, hk⟩
  · exact ⟨hp, hm, hf, hj, hk⟩
  · -- submit key
    split
    · split
      · exact ⟨hp, hm, hf, hj, hk⟩
      · exact ⟨hp, hm, hf, hj, hk⟩
    · exact ⟨hp, hm, hf, hj, hk⟩
  · -- Down
    split
    · rename_i hne
      have hlen : 0 < a.uploaded_files.length := List.length_pos.mpr hne
      refine ⟨hp, hm, ?_, hj, hk⟩
      intro i hi
      dsimp only at hi ⊢
      rcases hsel : a.selected_file_index with _ | i0 <;> rw [hsel] at hi
      · simp at hi
        omega
      · by_cases hlt : i0 < a.uploaded_files.length - 1 <;> simp [hlt] at hi <;> omega
    · exact ⟨hp, hm, hf, hj, hk⟩
  · -- Up
    split
    · rename_i hne
      have hlen : 0 < a.uploaded_files.length := List.length_pos.mpr hne
      refine ⟨hp, hm, ?_, hj, hk⟩
      intro i hi
      dsimp only at hi ⊢
      rcases hsel : a.selected_file_index with _ | i0 <;> rw [hsel] at hi
      · simp at hi
        omega
      · have hi0 := hf i0 hsel
        by_cases hlt : i0 > 0 <;> simp [hlt] at hi <;> omega
    · exact ⟨hp, hm, hf, hj, hk⟩
  · exact ⟨hp, hm, hf, hj, hk⟩

theorem inv_handle_settings (a : App) (k : KeyCode) (h : Inv a) :
    Inv (a.handle_settings_input k) := by
  obtain ⟨hp, hm, hf, hj, hk⟩ := h
  unfold App.handle_settings_input
  split
  · exact ⟨hp, hm, hf, hj, hk⟩
  · -- provider cycle
    split
    · refine ⟨hp, hm, hf, ?_, ?_⟩
      · obtain ⟨j, hjj, hj2⟩ := hj
        by_cases hlt : j < a.providers.length - 1
        · refine ⟨j + 1, by simp [hjj, hlt], ?_⟩
          simp [hp] at hlt
          omega
        · exact ⟨0, by simp [hjj, hlt], by omega⟩
      · intro k2 hk2
        simp at hk2
        omega
    · exact ⟨hp, hm, hf, hj, hk⟩
  · -- model cycle
    split
    · rename_i provider_idx hpidx
      dsimp only
      split
      · rename_i ms hms
        split
        · rename_i hne
          have hms2 : ms.length = 2 := by
            obtain ⟨j, hj0, hj2⟩ := hj
            rw [hpidx] at hj0
            injection hj0 with hjj
            subst hjj
            rw [hp, hm] at hms
            interval_cases provider_idx
            · have h3 : ["gpt-4-turbo", "gpt-3.5-turbo"] = ms := Option.some.inj hms
              rw [← h3]
              rfl
            · have h3 : ["claude-3-opus", "claude-3-sonnet"] = ms := Option.some.inj hms
              rw [← h3]
              rfl
          refine ⟨hp, hm, hf, hj, ?_⟩
          intro k2 hk2
          dsimp only at hk2
          rcases hsel : a.selected_model_index with _ | i0 <;> rw [hsel] at hk2
          · simp at hk2
            omega
          · by_cases hlt : i0 < ms.length - 1 <;> simp [hlt] at hk2 <;> omega
        · exact ⟨hp, hm, hf, hj, hk⟩
      · exact ⟨hp, hm, hf, hj, hk⟩
    · exact ⟨hp, hm, hf, hj, hk⟩
  · exact ⟨hp, hm, hf, hj, hk⟩

theorem inv_handle_job_status (a : App) (k : KeyCode) (h : Inv a) :
    Inv (a.handle_job_status_input k) := by
  obtain ⟨hp, hm, hf, hj, hk⟩ := h
  unfold App.handle_job_status_input
  split
  · exact ⟨hp, hm, hf, hj, hk⟩
  · exact ⟨hp, hm, hf, hj, hk⟩
  · dsimp only
    split
    · exact ⟨hp, hm, hf, hj, hk⟩
    · exact ⟨hp, hm, hf, hj, hk⟩
  · exact ⟨hp, hm, hf, hj, hk⟩

theorem inv_step (a a2 : App) (k : KeyCode) (h : Inv a)
    (hs : step a k = some a2) : Inv a2 := by
  unfold step at hs
  split at hs
  · split at hs
    · exact Option.noConfusion hs
    · cases hs; exact h
    · cases hs; exact h
    · cases hs; exact h
    · cases hs; exact h
    · cases hs; exact h
  · split at hs
    · cases hs; exact h
    · cases hs; exact inv_handle_upload a k h
  · split at hs
    · cases hs; exact h
    · cases hs; exact inv_handle_process a k h
  · split at hs
    · cases hs; exact h
    · cases hs; exact inv_handle_settings a k h
  · split at hs
    · cases hs; exact h
    · cases hs; exact inv_handle_job_status a k h

theorem inv_runKeys (ks : List KeyCode) (a a2 : App) (h : Inv a)
    (hr : runKeys a ks = some a2) : Inv a2 := by
  induction ks generalizing a with
  | nil =>
      unfold runKeys at hr
      cases hr
      exact h
  | cons k ks ih =>
      unfold runKeys at hr
      split at hr
      · exact Option.noConfusion hr
      · rename_i a3 hstep
        exact ih a3 (inv_step a a3 k h hstep) hr

/-- Claim C4: on every session reachable from `App::new` by dispatched key
events, each selected index is absent or valid: the file index is below
the uploaded-file count, the provider index is below the provider count,
and the model index is below the current provider model-list length. -/
theorem reachable_selected_indices_valid (url : String) (keys : List KeyCode)
    (a : App) (h : runKeys (App.new url) keys = some a) :
    (∀ i, a.selected_file_index = some i → i < a.uploaded_files.length) ∧
    (∀ j, a.selected_provider_index = some j → j < a.providers.length) ∧
    (∀ k, a.selected_model_index = some k → k < currentModelsLen a) := by
  have hInv : Inv a := inv_runKeys keys (App.new url) a (inv_new url) h
  obtain ⟨hp, hm, hf, ⟨j0, hj0, hj02⟩, hk⟩ := hInv
  refine ⟨hf, ?_, ?_⟩
  · intro j hj
    rw [hj0] at hj
    injection hj with hjj
    subst hjj
    rw [hp]
    simpa using hj02
  · intro k2 hk2
    have hlen : currentModelsLen a = 2 := by
      unfold currentModelsLen App.get_current_provider
      simp only [hj0, hp, hm]
      interval_cases j0 <;> rfl
    rw [hlen]
    exact hk k2 hk2

/-- Witness for `reachable_selected_indices_valid` at the empty key
sequence. -/
theorem reachable_selected_indices_valid_witness :
    0 < (App.new "http://localhost:8000").providers.length :=
  (reachable_selected_indices_valid "http://localhost:8000" [] _ rfl).2.1 0 rfl

/-- Counterexample to claim C8 as stated: a `ProcessingConfig` whose
temperature is NaN does not survive the serde round trip —
`serde_json::Number` cannot hold a non-finite float, so the temperature
serializes as `null` and deserializes back as absent. -/
theorem serde_roundtrip_cex :
    deserializeProcessingConfig (serializeProcessingConfig
      { provider := "openai", model := "gpt-4-turbo", system_prompt := none,
        keywords := none, temperature := some F32.nan, max_tokens := none,
        language := none, processing_type := "standard", add_reasoning := none,
        output_format := none })
    ≠ some { provider := "openai", model := "gpt-4-turbo", system_prompt := none,
             keywords := none, temperature := some F32.nan, max_tokens := none,
             language := none, processing_type := "standard", add_reasoning := none,
             output_format := none } := by
  decide

/-- Claim C8 amended: serializing then deserializing yields field-for-field
equality for every `JobStatus`, and for every `ProcessingConfig` whose
temperature is absent or finite (a non-finite temperature serializes as
`null` and comes back absent). -/
theorem serde_roundtrip :
    (∀ c : ProcessingConfig, finiteTemp c.temperature = true →
      deserializeProcessingConfig (serializeProcessingConfig c) = some c) ∧
    (∀ j : JobStatus, deserializeJobStatus (serializeJobStatus j) = some j) := by
  constructor
  · intro c h
    have ht := jOpt_f32 c.temperature h
    simp only [deserializeProcessingConfig, getPC_provider, getPC_model,
      getPC_system_prompt, getPC_keywords, getPC_temperature, getPC_max_tokens,
      getPC_language, getPC_processing_type, getPC_add_reasoning, getPC_output_format,
      ht, jStr_str, jOpt_str, jOpt_u64, jOpt_bool, jOpt_strList,
      Option.bind_eq_bind, Option.some_bind]
    rfl
  · intro j
    simp only [deserializeJobStatus, getJS_job_id, getJS_status, getJS_current,
      getJS_total, getJS_error, jStr_str, jOpt_str, jOpt_u64,
      Option.bind_eq_bind, Option.some_bind]
    rfl

/-- Witness for `serde_roundtrip` on concrete values. -/
theorem serde_roundtrip_witness :
    deserializeProcessingConfig (serializeProcessingConfig
      { provider := "anthropic", model := "claude-3-opus", system_prompt := some "sp",
        keywords := some ["k1", "k2"], temperature := some (F32.finite (7 / 10)),
        max_tokens := some 4096, language := some "pl", processing_type := "translate",
        add_reasoning := some true, output_format := some "json" })
    = some { provider := "anthropic", model := "claude-3-opus",
             system_prompt := some "sp", keywords := some ["k1", "k2"],
             temperature := some (F32.finite (7 / 10)), max_tokens := some 4096,
             language := some "pl", processing_type := "translate",
             add_reasoning := some true, output_format := some "json" } :=
  serde_roundtrip.1 _ rfl

end RustUI
